import Mathlib

/-!
# Unix domain socket timeout experiment

A shallow embedding of `lib/experiments/unix_domain_sock_timeouts.go`.

The Go code talks to the operating system through `net.Conn`, `net.Listener`,
`net.DialUnix`, `ioutil.TempFile` and `os.Remove`.  Those are modelled as
scripts: for every method the script gives the outcome of its first, second,
third ... call.  A Go function becomes a Lean function from the scripts it
consumes to its return value, the scripts that are left, and the list of
events (calls with their outcome, `fmt.Printf` lines, sleeps, channel
operations) it performed, in program order.
-/

namespace Experiments

/-! ## Data model -/

/-- One byte, as the natural number below 256 it stands for. -/
abbrev Byte := Nat

/-- Go `time.Duration`: a number of nanoseconds. -/
abbrev Duration := Nat

/-- Go `time.Second`. -/
def Second : Duration := 1000000000

/-- Source constant `connectRetries`. -/
def connectRetries : Nat := 3

/-- Source constant `clientRetryWait`. -/
def clientRetryWait : Duration := 1 * Second

/-- Source constant `clientConnectDeadline`. -/
def clientConnectDeadline : Duration := 3 * Second

/-- Source constant `serverConnectDeadline`. -/
def serverConnectDeadline : Duration := 3 * Second

/-- A non-nil Go `error` value.  `sys` is an error made outside the package
(by `net`, `os`, `ioutil`); `errorf` is the value built by `fmt.Errorf` from a
format string and its integer arguments. -/
inductive GoError where
  | sys (msg : String)
  | errorf (format : String) (args : List Int)
  deriving DecidableEq, Repr

/-- The side of the exchange an operation belongs to. -/
inductive Role where
  | CLIENT
  | SERVER
  deriving DecidableEq, Repr

/-- The text before the first tab of a log line: `CLIENT`, `SERVER`, or the
dashes of a test banner (the second and third banner put a newline before
their dashes). -/
inductive Tag where
  | CLIENT
  | SERVER
  | DASHES
  deriving DecidableEq, Repr

/-- The log tag a role writes under. -/
def Role.tag : Role → Tag
  | .CLIENT => .CLIENT
  | .SERVER => .SERVER

/-- An argument of a `fmt.Printf` call: an integer for `%d`; for `%s` a
string, the text `err.Error()` of an error, or `string(b)` of a byte slice. -/
inductive Arg where
  | int (n : Int)
  | str (s : String)
  | errText (e : GoError)
  | bytes (b : List Byte)
  deriving DecidableEq, Repr

/-- What a run does, one entry per call.  Calls carry their arguments and
their outcome; deadlines are recorded as the duration added to `time.Now()`.
`printf tag format args` is `fmt.Printf`, with the format string split at its
first tab into `tag` and `format`. -/
inductive Event where
  | printf (tag : Tag) (format : String) (args : List Arg)
  | sleep (d : Duration)
  | dial (addr : String) (err : Option GoError)
  | setWriteDeadline (who : Role) (d : Duration) (err : Option GoError)
  | write (who : Role) (msg : List Byte) (n : Int) (err : Option GoError)
  | setReadDeadline (who : Role) (d : Duration) (err : Option GoError)
  | read (who : Role) (bufLen : Nat) (n : Nat) (err : Option GoError)
  | connClose (who : Role) (err : Option GoError)
  | accept (err : Option GoError)
  | sendConn
  | closeDone (who : Role)
  | tempFile (err : Option GoError)
  | fileClose (err : Option GoError)
  | remove (addr : String) (err : Option GoError)
  | listen (addr : String) (err : Option GoError)
  | listenerClose (err : Option GoError)
  deriving DecidableEq, Repr

/-- What one `Read` call delivers: the bytes that arrived and the error. -/
structure ReadResult where
  data : List Byte
  err : Option GoError
  deriving DecidableEq, Repr

/-- A `net.Conn`, as the script of what its calls answer: the outcome of the
`i`-th call (from 0) of each method. -/
structure Conn where
  setReadDeadlineRes : Nat → Option GoError
  readRes : Nat → ReadResult
  setWriteDeadlineRes : Nat → Option GoError
  writeRes : Nat → Int × Option GoError
  closeRes : Nat → Option GoError

/-- Drop the first entry of a script. -/
def next {α : Type} (s : Nat → α) : Nat → α := fun i => s (i + 1)

/-- Call `conn.SetReadDeadline`: the error and the connection afterwards. -/
def Conn.SetReadDeadline (c : Conn) : Option GoError × Conn :=
  (c.setReadDeadlineRes 0, { c with setReadDeadlineRes := next c.setReadDeadlineRes })

/-- Call `conn.SetWriteDeadline`. -/
def Conn.SetWriteDeadline (c : Conn) : Option GoError × Conn :=
  (c.setWriteDeadlineRes 0, { c with setWriteDeadlineRes := next c.setWriteDeadlineRes })

/-- Call `conn.Write(msg)`: the count `n`, the error, the connection afterwards. -/
def Conn.Write (c : Conn) : Int × Option GoError × Conn :=
  ((c.writeRes 0).1, (c.writeRes 0).2, { c with writeRes := next c.writeRes })

/-- The buffer after a read that delivered `data`: the bytes that fit
overwrite the front of the buffer, the rest of the buffer is untouched. -/
def fillBuf (buf data : List Byte) : List Byte :=
  data.take buf.length ++ buf.drop (data.take buf.length).length

/-- Call `conn.Read(buf)`: the count `n`, the buffer afterwards, the error,
and the connection afterwards. -/
def Conn.Read (c : Conn) (buf : List Byte) : Nat × List Byte × Option GoError × Conn :=
  (((c.readRes 0).data.take buf.length).length, fillBuf buf (c.readRes 0).data,
    (c.readRes 0).err, { c with readRes := next c.readRes })

/-- Call `conn.Close`. -/
def Conn.Close (c : Conn) : Option GoError × Conn :=
  (c.closeRes 0, { c with closeRes := next c.closeRes })

/-- Go `make([]byte, n)`: `n` zero bytes. -/
def makeBytes (n : Nat) : List Byte := List.replicate n 0

/-- Go `[]byte(s)` for a string of ASCII characters. -/
def bytesOf (s : String) : List Byte := s.toList.map Char.toNat

/-! ## The client -/

/-- Source `clientSayHello`: returns the error, the connection afterwards and
the events. -/
def clientSayHello (conn : Conn) : Option GoError × Conn × List Event :=
  match conn.SetWriteDeadline with
  | (some err, conn1) => (some err, conn1, [.setWriteDeadline .CLIENT clientConnectDeadline (some err)])
  | (none, conn1) =>
    let msg := bytesOf "Hello!"
    match conn1.Write with
    | (n, some err, conn2) =>
      (some err, conn2,
        [.setWriteDeadline .CLIENT clientConnectDeadline none, .write .CLIENT msg n (some err)])
    | (n, none, conn2) =>
      if n ≠ (msg.length : Int) then
        (some (.errorf "Supposed to write %d bytes, but wrote %d" [(msg.length : Int), n]), conn2,
          [.setWriteDeadline .CLIENT clientConnectDeadline none, .write .CLIENT msg n none])
      else
        (none, conn2,
          [.setWriteDeadline .CLIENT clientConnectDeadline none, .write .CLIENT msg n none])

/-- The `for retries := 3; retries > 0; retries--` loop of `clientRecvGreeting`
followed by its `return buf, err`.  `err` is the variable declared by
`var err error` before the loop; only `SetReadDeadline` assigns to it.  The
`_, err := conn.Read(buf)` of the loop body declares a new variable in the
scope of the body, here `errRead`, which is gone when the body ends.  A nil
slice is the empty list. -/
def clientRecvGreetingLoop :
    Nat → List Byte → Option GoError → Conn → (List Byte × Option GoError) × Conn × List Event
  | 0, buf, err, conn => ((buf, err), conn, [])
  | retries + 1, buf, _, conn =>
    let line := Event.printf .CLIENT "Read try %d...\n" [.int (4 - ((retries + 1 : Nat) : Int))]
    match conn.SetReadDeadline with
    | (some err, conn1) =>
      (([], some err), conn1, [line, .setReadDeadline .CLIENT clientConnectDeadline (some err)])
    | (none, conn1) =>
      let err : Option GoError := none
      match conn1.Read buf with
      | (n, buf1, errRead, conn2) =>
        let evs := [line, .setReadDeadline .CLIENT clientConnectDeadline none,
          .read .CLIENT buf.length n errRead]
        let logs := match errRead with
          | some e => [Event.printf .CLIENT "Failed to read from server: %s\n" [.errText e]]
          | none => []
        match clientRecvGreetingLoop retries buf1 err conn2 with
        | (r, conn3, rest) => (r, conn3, evs ++ logs ++ rest)

/-- Source `clientRecvGreeting`. -/
def clientRecvGreeting (conn : Conn) : (List Byte × Option GoError) × Conn × List Event :=
  clientRecvGreetingLoop 3 (makeBytes 50) none conn

/-- The greeting and the response inside the `else` branch of `client`: from
`if err := clientSayHello(conn)` to the end of that statement.  Returns the
connection afterwards and the events. -/
def clientTalk (conn : Conn) : Conn × List Event :=
  match clientSayHello conn with
  | (some err, conn1, evs) =>
    (conn1, evs ++ [.printf .CLIENT "Failed to say hello to server in time: %s\n" [.errText err]])
  | (none, conn1, evs) =>
    match clientRecvGreeting conn1 with
    | ((_, some err), conn2, evs2) =>
      (conn2, evs ++
        [.printf .CLIENT "Successfully said hello to server\n" [],
         .printf .CLIENT "Waiting for response from server...\n" []] ++ evs2 ++
        [.printf .CLIENT "Failed to hear back from server: %s\n" [.errText err]])
    | ((res, none), conn2, evs2) =>
      (conn2, evs ++
        [.printf .CLIENT "Successfully said hello to server\n" [],
         .printf .CLIENT "Waiting for response from server...\n" []] ++ evs2 ++
        [.printf .CLIENT "Successfully heard back from server: %s\n" [.bytes res]])

/-- The close inside the `else` branch of `client`: `conn.Close()`, its log
line when it fails, and the line that follows. -/
def clientClose (conn : Conn) : List Event :=
  match conn.Close with
  | (some err, _) =>
    [.connClose .CLIENT (some err),
     .printf .CLIENT "Failed to close connection: %s\n" [.errText err],
     .printf .CLIENT "Connection closed.\n" []]
  | (none, _) => [.connClose .CLIENT none, .printf .CLIENT "Connection closed.\n" []]

/-- The `else` branch of the retry loop of `client`, entered with the
connection a dial returned, up to its `break`.  `attempt` is
`connectRetries-retries+1`. -/
def clientConnected (attempt : Int) (conn : Conn) : List Event :=
  [.printf .CLIENT "Connect successful after %d attempts!\n" [.int attempt]] ++
    (clientTalk conn).2 ++ clientClose (clientTalk conn).1

/-- The `for retries := connectRetries; retries > 0; retries--` loop of
`client`.  `dial` is the script of `net.DialUnix`: what its next calls
return. -/
def clientLoop (serverAddr : String) : Nat → (Nat → Except GoError Conn) → List Event
  | 0, _ => []
  | retries + 1, dial =>
    (if retries + 1 < connectRetries then
      [Event.printf .CLIENT "Waiting to retry...\n" [], .sleep clientRetryWait]
    else []) ++
    [.printf .CLIENT "Connect attempt %d...\n"
      [.int ((connectRetries : Int) - ((retries + 1 : Nat) : Int) + 1)]] ++
    match dial 0 with
    | .error err =>
      [.dial serverAddr (some err),
       .printf .CLIENT "Client connect failure with err=%s\n" [.errText err]] ++
        clientLoop serverAddr retries (next dial)
    | .ok conn =>
      [.dial serverAddr none] ++
        clientConnected ((connectRetries : Int) - ((retries + 1 : Nat) : Int) + 1) conn

/-- Source `client`: the retry loop, then the deferred `close(donec)`. -/
def client (serverAddr : String) (dial : Nat → Except GoError Conn) : List Event :=
  clientLoop serverAddr connectRetries dial ++ [.closeDone .CLIENT]

/-! ## The server -/

/-- Source `serverReadGreeting`.  A nil slice is the empty list. -/
def serverReadGreeting (conn : Conn) : (List Byte × Option GoError) × Conn × List Event :=
  match conn.SetReadDeadline with
  | (some err, conn1) =>
    (([], some err), conn1, [.setReadDeadline .SERVER serverConnectDeadline (some err)])
  | (none, conn1) =>
    let buf := makeBytes 50
    match conn1.Read buf with
    | (n, _, some err, conn2) =>
      (([], some err), conn2,
        [.setReadDeadline .SERVER serverConnectDeadline none, .read .SERVER buf.length n (some err)])
    | (n, buf1, none, conn2) =>
      ((buf1, none), conn2,
        [.setReadDeadline .SERVER serverConnectDeadline none, .read .SERVER buf.length n none])

/-- Source `serverRespond`. -/
def serverRespond (conn : Conn) : Option GoError × Conn × List Event :=
  match conn.SetWriteDeadline with
  | (some err, conn1) => (some err, conn1, [.setWriteDeadline .SERVER serverConnectDeadline (some err)])
  | (none, conn1) =>
    let msg := bytesOf "Hey there!"
    match conn1.Write with
    | (n, some err, conn2) =>
      (some err, conn2,
        [.setWriteDeadline .SERVER serverConnectDeadline none, .write .SERVER msg n (some err)])
    | (n, none, conn2) =>
      if n ≠ (msg.length : Int) then
        (some (.errorf "Supposed to write %d bytes, but wrote %d" [(msg.length : Int), n]), conn2,
          [.setWriteDeadline .SERVER serverConnectDeadline none, .write .SERVER msg n none])
      else
        (none, conn2,
          [.setWriteDeadline .SERVER serverConnectDeadline none, .write .SERVER msg n none,
           .printf .SERVER "Wrote string: %s" [.bytes msg]])

/-- A `net.Listener`, as the script of what its calls answer. -/
structure Listener where
  acceptRes : Nat → Except GoError Conn
  closeRes : Nat → Option GoError

/-- Source `serverListenForHelloAndRespond`, run against a receiver that
takes the connection from `connc`.  Returns the error, the connection that
was handed over on `connc` (as the responder leaves it) if one was, and the
events; the deferred `close(donec)` is the last of them. -/
def serverListenForHelloAndRespond (ln : Listener) :
    Option GoError × Option Conn × List Event :=
  match ln.acceptRes 0 with
  | .error err => (some err, none, [.accept (some err), .closeDone .SERVER])
  | .ok conn =>
    let pre := [Event.accept none, .sendConn, .printf .SERVER "Client connected\n" []]
    match serverReadGreeting conn with
    | ((_, some err), conn1, evs) => (some err, some conn1, pre ++ evs ++ [.closeDone .SERVER])
    | ((msg, none), conn1, evs) =>
      let mid := [Event.printf .SERVER "Got greeting from client: %s\n" [.bytes msg],
        .printf .SERVER "Responding to client...\n" []]
      match serverRespond conn1 with
      | (some err, conn2, evs2) =>
        (some err, some conn2, pre ++ evs ++ mid ++ evs2 ++ [.closeDone .SERVER])
      | (none, conn2, evs2) =>
        (none, some conn2, pre ++ evs ++ mid ++ evs2 ++
          [.printf .SERVER "Successfully responded to client.\n" [], .closeDone .SERVER])

/-! ## The experiment -/

/-- The file system calls of `unixSocketAddr`, as their outcomes:
`ioutil.TempFile` (the name of the file it made, or an error), `f.Close` and
`os.Remove`. -/
structure FileSys where
  tempFileRes : Except GoError String
  fileCloseRes : Option GoError
  removeRes : Option GoError

/-- Source `unixSocketAddr`. -/
def unixSocketAddr (fs : FileSys) : (String × Option GoError) × List Event :=
  match fs.tempFileRes with
  | .error err => (("", some err), [.tempFile (some err)])
  | .ok addr =>
    ((addr, none), [.tempFile none, .fileClose fs.fileCloseRes, .remove addr fs.removeRes])

/-- Merge the events of two goroutines that run side by side.  The schedule
says whose turn it is (`true`: the first); when it runs out, or one of the two
is done, what is left runs in order. -/
def interleave : List Bool → List Event → List Event → List Event
  | _, [], ys => ys
  | _, x :: xs, [] => x :: xs
  | [], x :: xs, y :: ys => (x :: xs) ++ (y :: ys)
  | true :: s, x :: xs, y :: ys => x :: interleave s xs (y :: ys)
  | false :: s, x :: xs, y :: ys => y :: interleave s (x :: xs) ys

/-- Everything outside the program that a run of the experiment meets: the
file system, what `net.DialUnix` answers in each of the three client runs,
what `net.Listen` answers, and how the scheduler interleaves the responder and
the client of the third test. -/
structure Env where
  fs : FileSys
  dial1 : Nat → Except GoError Conn
  listenRes : Except GoError Listener
  dial2 : Nat → Except GoError Conn
  dial3 : Nat → Except GoError Conn
  sched : List Bool

/-- How a run of the experiment ends: it returns its error, or the main
goroutine waits on `connc` for a connection that is never sent. -/
inductive Outcome where
  | returned (err : Option GoError)
  | blocked
  deriving DecidableEq, Repr

/-- Source `RunUnixDomainSocketTimeoutExperiment`.  In the first two tests the
main goroutine waits on `donec` while the client runs, so the client events
follow in order; in the third the responder and the client run side by side.
The deferred functions run last, the one declared last first. -/
def RunUnixDomainSocketTimeoutExperiment (env : Env) : Outcome × List Event :=
  match unixSocketAddr env.fs with
  | ((_, some err), evs) => (.returned (some err), evs)
  | ((addr, none), evs) =>
    let test1 := evs ++
      [.printf .SERVER "Using Unix domain socket: %s\n\n" [.str addr],
       .printf .DASHES "TEST 1: Try to connect to dead server\n\n" []] ++
      client addr env.dial1
    match env.listenRes with
    | .error err => (.returned (some err), test1 ++ [.listen addr (some err)])
    | .ok ln =>
      let test2 := test1 ++
        [.listen addr none,
         .printf .DASHES "TEST 2: Connect to listening server, but nobody's accepting\n\n" []] ++
        client addr env.dial2 ++
        [.printf .DASHES "TEST 3: Connect to listening server, with server accepting\n\n" []]
      let closeLn := [Event.printf .SERVER "Shutting down server...\n" [],
        .listenerClose (ln.closeRes 0), .printf .SERVER "Server shut down.\n" []]
      match serverListenForHelloAndRespond ln with
      | (_, none, sevs) => (.blocked, test2 ++ interleave env.sched sevs (client addr env.dial3))
      | (_, some serverConn, sevs) =>
        (.returned none, test2 ++ interleave env.sched sevs (client addr env.dial3) ++
          [.printf .SERVER "Closing client connection...\n" [],
           .connClose .SERVER serverConn.Close.1,
           .printf .SERVER "Client connection closed.\n" []] ++ closeLn)

/-! ## Reading a list of events -/

/-- A call of `net.DialUnix`. -/
def Event.isDial : Event → Bool
  | .dial _ _ => true
  | _ => false

/-- A call of `time.Sleep`. -/
def Event.isSleep : Event → Bool
  | .sleep _ => true
  | _ => false

/-- A call of `Read` on a connection. -/
def Event.isRead : Event → Bool
  | .read _ _ _ _ => true
  | _ => false

/-- A call of `Write` on a connection. -/
def Event.isWrite : Event → Bool
  | .write _ _ _ _ => true
  | _ => false

/-- A call of `Close` on a connection. -/
def Event.isConnClose : Event → Bool
  | .connClose _ _ => true
  | _ => false

/-- A `close(donec)`. -/
def Event.isCloseDone : Event → Bool
  | .closeDone _ => true
  | _ => false

/-- A send of the accepted connection on `connc`. -/
def Event.isSendConn : Event → Bool
  | .sendConn => true
  | _ => false

/-- A call of `SetReadDeadline` or `Read` on a connection. -/
def Event.isReadStep : Event → Bool
  | .setReadDeadline _ _ _ => true
  | .read _ _ _ _ => true
  | _ => false

/-- Any call on a connection other than `Close`. -/
def Event.isConnUse : Event → Bool
  | .setWriteDeadline _ _ _ => true
  | .write _ _ _ _ => true
  | .setReadDeadline _ _ _ => true
  | .read _ _ _ _ => true
  | _ => false

/-- The events of one pass through the read loop of `clientRecvGreeting` in
which `SetReadDeadline` succeeds: the `i`-th pass (from 0), with `Read`
answering `r` into a buffer of 50 bytes. -/
def readTry (i : Nat) (r : ReadResult) : List Event :=
  [.printf .CLIENT "Read try %d...\n" [.int ((i : Int) + 1)],
   .setReadDeadline .CLIENT clientConnectDeadline none,
   .read .CLIENT 50 (r.data.take 50).length r.err] ++
  match r.err with
  | some e => [.printf .CLIENT "Failed to read from server: %s\n" [.errText e]]
  | none => []

/-! ## Sample scripts -/

/-- The error of a read or write whose deadline passed. -/
def timeoutErr : GoError := .sys "i/o timeout"

/-- The error of a write to a connection whose peer is gone. -/
def brokenPipeErr : GoError := .sys "write: broken pipe"

/-- A connection to a listener nobody accepts on (the second test): the
greeting is written in full, every read runs into its deadline. -/
def silentConn : Conn where
  setReadDeadlineRes := fun _ => none
  readRes := fun _ => ⟨[], some timeoutErr⟩
  setWriteDeadlineRes := fun _ => none
  writeRes := fun _ => (6, none)
  closeRes := fun _ => none

/-- The client side of a full exchange: the greeting is written in full, the
first read delivers `Hey there!`, the later reads run into their deadline. -/
def answeredConn : Conn where
  setReadDeadlineRes := fun _ => none
  readRes := fun i => if i = 0 then ⟨bytesOf "Hey there!", none⟩ else ⟨[], some timeoutErr⟩
  setWriteDeadlineRes := fun _ => none
  writeRes := fun _ => (6, none)
  closeRes := fun _ => none

/-- A connection on which `Write` takes only 4 of the 6 bytes, without error. -/
def shortWriteConn : Conn where
  setReadDeadlineRes := fun _ => none
  readRes := fun _ => ⟨[], some timeoutErr⟩
  setWriteDeadlineRes := fun _ => none
  writeRes := fun _ => (4, none)
  closeRes := fun _ => none


/-- A log line of the client or a call of the client on its connection other
than `Close`: what the greeting and the response consist of. -/
def Event.isTalk : Event → Bool
  | .printf .CLIENT _ _ => true
  | .setWriteDeadline .CLIENT _ _ => true
  | .write .CLIENT _ _ _ => true
  | .setReadDeadline .CLIENT _ _ => true
  | .read .CLIENT _ _ _ => true
  | _ => false

/-- The error of a dial, nil when it returned a connection. -/
def dialErr : Except GoError Conn → Option GoError
  | .error e => some e
  | .ok _ => none

/-- The dials and sleeps of a client run whose first `k` dials are the ones
it makes: a dial, then a sleep of `clientRetryWait` and a dial for each
further attempt. -/
def dialsAndSleeps (addr : String) (dial : Nat → Except GoError Conn) : Nat → List Event
  | 0 => []
  | k + 1 =>
    dialsAndSleeps addr dial k ++ (if k = 0 then [] else [.sleep clientRetryWait]) ++
      [.dial addr (dialErr (dial k))]

/-- The error of a refused dial. -/
def refusedErr : GoError := .sys "connect: no such file or directory"

/-- Dials that are all refused (the first test). -/
def deadDial : Nat → Except GoError Conn := fun _ => .error refusedErr

/-- Dials of which the first is refused and the second connects, to a
connection on which setting the write deadline fails. -/
def secondDial : Nat → Except GoError Conn := fun i =>
  if i = 1 then
    .ok { silentConn with setWriteDeadlineRes := fun _ => some (.sys "use of closed connection") }
  else .error refusedErr

/-- Dials whose first connects, to a connection on which the greeting is
cut short and the close fails. -/
def firstDial : Nat → Except GoError Conn := fun _ =>
  .ok { shortWriteConn with closeRes := fun _ => some (.sys "close: bad file descriptor") }


/-- The server side of a connection on which the client greeting arrives in
one read and the response is written in full. -/
def helloConn : Conn where
  setReadDeadlineRes := fun _ => none
  readRes := fun _ => ⟨bytesOf "Hello!", none⟩
  setWriteDeadlineRes := fun _ => none
  writeRes := fun _ => (10, none)
  closeRes := fun _ => none

/-- A listener whose accept returns a connection on which nothing arrives
before the read deadline. -/
def quietListener : Listener where
  acceptRes := fun _ => .ok silentConn
  closeRes := fun _ => none

/-- A file system on which the temporary file is made and closed, and its
removal fails. -/
def stuckFile : FileSys where
  tempFileRes := .ok "/tmp/unix-domain-sock-timeouts-1"
  fileCloseRes := none
  removeRes := some (.sys "remove: operation not permitted")


/-! ## Errors and the log lines that report them -/

/-- The failed call an event records, if it records one, with the side the
call belongs to: a dial, a deadline, a read, a write, an accept, or the close
of a connection or of the listener, that returned a non-nil error. -/
def Event.failure : Event → Option (Role × GoError)
  | .dial _ (some e) => some (.CLIENT, e)
  | .setWriteDeadline who _ (some e) => some (who, e)
  | .write who _ _ (some e) => some (who, e)
  | .setReadDeadline who _ (some e) => some (who, e)
  | .read who _ _ (some e) => some (who, e)
  | .connClose who (some e) => some (who, e)
  | .accept (some e) => some (.SERVER, e)
  | .listenerClose (some e) => some (.SERVER, e)
  | _ => none

/-- The event is a log line under `tag` that prints the text of error `e`. -/
def Event.reports (tag : Tag) (e : GoError) : Event → Bool
  | .printf t _ args => t == tag && args.contains (.errText e)
  | _ => false

/-- Every failed call of side `who` in the list is followed, later in the
list, by a log line under the tag of `who` that reports its error. -/
def errorsLoggedOf (who : Role) : List Event → Bool
  | [] => true
  | ev :: rest =>
    (match ev.failure with
      | some (w, e) => w != who || rest.any (Event.reports who.tag e)
      | none => true) && errorsLoggedOf who rest

/-- Every failed call in the list, of the client and of the server, is
followed by a log line of its side that reports its error. -/
def errorsLogged (t : List Event) : Bool :=
  errorsLoggedOf .CLIENT t && errorsLoggedOf .SERVER t

/-- What the client goroutine does: its log lines, sleeps and dials, the calls
on its connection, its `close(donec)`. -/
def Event.isClientSide : Event → Bool
  | .printf .CLIENT _ _ => true
  | .sleep _ => true
  | .dial _ _ => true
  | .setWriteDeadline .CLIENT _ _ => true
  | .write .CLIENT _ _ _ => true
  | .setReadDeadline .CLIENT _ _ => true
  | .read .CLIENT _ _ _ => true
  | .connClose .CLIENT _ => true
  | .closeDone .CLIENT => true
  | _ => false

/-- An argument that is the text of an error. -/
def Arg.isErrText : Arg → Bool
  | .errText _ => true
  | _ => false

/-- What the responder and the main goroutine do: log lines under `SERVER`
or the dashes, none of which prints an error; the file system calls; the
calls on the listener and on the accepted connection; the send on `connc`;
the `close(donec)` of the responder. -/
def Event.isServerSide : Event → Bool
  | .printf .CLIENT _ _ => false
  | .printf _ _ args => args.all (fun a => !a.isErrText)
  | .setWriteDeadline .SERVER _ _ => true
  | .write .SERVER _ _ _ => true
  | .setReadDeadline .SERVER _ _ => true
  | .read .SERVER _ _ _ => true
  | .connClose .SERVER _ => true
  | .accept _ => true
  | .sendConn => true
  | .closeDone .SERVER => true
  | .tempFile _ => true
  | .fileClose _ => true
  | .remove _ _ => true
  | .listen _ _ => true
  | .listenerClose _ => true
  | _ => false

/-- The accepted connection of a third test in which the responder gets the
connection left in the queue by the second test: the greeting is read, the
peer is gone when the response is written. -/
def staleConn : Conn where
  setReadDeadlineRes := fun _ => none
  readRes := fun _ => ⟨bytesOf "Hello!", none⟩
  setWriteDeadlineRes := fun _ => none
  writeRes := fun _ => (0, some brokenPipeErr)
  closeRes := fun _ => none

/-- A run of the experiment: the dials of the first test are refused, the
listener is bound, the clients of the second and third test connect, write
the greeting and get no answer, and the responder of the third test fails to
write its response. -/
def staleEnv : Env where
  fs := ⟨.ok "/tmp/unix-domain-sock-timeouts-1", none, none⟩
  dial1 := deadDial
  listenRes := .ok ⟨fun _ => .ok staleConn, fun _ => none⟩
  dial2 := fun _ => .ok silentConn
  dial3 := fun _ => .ok silentConn
  sched := [true, false, true, true, false]


/-! ## Lemmas -/

theorem fillBuf_length (buf data : List Byte) : (fillBuf buf data).length = buf.length := by
  simp [fillBuf, List.length_take, List.length_drop]

theorem makeBytes_length (n : Nat) : (makeBytes n).length = n := by
  simp [makeBytes]

theorem bytesOf_hello : bytesOf "Hello!" = [72, 101, 108, 108, 111, 33] := by
  decide

/-- When the three `SetReadDeadline` calls succeed, `clientRecvGreeting` makes
three passes, returns the buffer the three reads wrote into, and returns a nil
error. -/
theorem clientRecvGreeting_eq (conn : Conn)
    (h : ∀ i, i < 3 → conn.setReadDeadlineRes i = none) :
    (clientRecvGreeting conn).1 =
      (fillBuf (fillBuf (fillBuf (makeBytes 50) (conn.readRes 0).data) (conn.readRes 1).data)
        (conn.readRes 2).data, none) ∧
    (clientRecvGreeting conn).2.2 =
      readTry 0 (conn.readRes 0) ++ readTry 1 (conn.readRes 1) ++ readTry 2 (conn.readRes 2) := by
  have h0 := h 0 (by decide)
  have h1 := h 1 (by decide)
  have h2 := h 2 (by decide)
  simp [clientRecvGreeting, clientRecvGreetingLoop, Conn.SetReadDeadline, Conn.Read, next, h0, h1, h2,
    readTry, fillBuf_length, makeBytes_length]

/-! ## Claims -/

/-- C1 (the code departs from the claim): on a connection where the three
`SetReadDeadline` calls succeed and all three reads, the third included, fail
with a timeout, `clientRecvGreeting` returns a nil error, and the client run
logs that it heard back from the server. -/
theorem clientRecvGreeting_timeouts_return_nil :
    (∀ i, i < 3 → silentConn.setReadDeadlineRes i = none) ∧
    (silentConn.readRes 2).err = some timeoutErr ∧
    (clientRecvGreeting silentConn).2.2.filter Event.isRead =
      [.read .CLIENT 50 0 (some timeoutErr), .read .CLIENT 50 0 (some timeoutErr),
       .read .CLIENT 50 0 (some timeoutErr)] ∧
    (clientRecvGreeting silentConn).1 = (makeBytes 50, none) ∧
    Event.printf .CLIENT "Successfully heard back from server: %s\n" [.bytes (makeBytes 50)] ∈
      client "/tmp/sock" (fun _ => .ok silentConn) := by
  refine ⟨fun _ _ => rfl, rfl, by decide, by decide, by decide⟩

/-- C2: on every connection whose `SetReadDeadline` calls succeed,
`clientRecvGreeting` makes exactly three passes, whatever each read answers:
each pass is a log line, a `SetReadDeadline(now + clientConnectDeadline)` and,
right after it, a `Read` into the 50-byte buffer (followed by a log line when
the read failed); the buffer keeps its 50 bytes from read to read and the one
buffer written by the three reads in turn is what is returned. -/
theorem clientRecvGreeting_always_three_reads (conn : Conn)
    (h : ∀ i, i < 3 → conn.setReadDeadlineRes i = none) :
    (clientRecvGreeting conn).2.2 =
      readTry 0 (conn.readRes 0) ++ readTry 1 (conn.readRes 1) ++ readTry 2 (conn.readRes 2) ∧
    ((clientRecvGreeting conn).2.2.filter Event.isReadStep) =
      [.setReadDeadline .CLIENT clientConnectDeadline none,
       .read .CLIENT 50 ((conn.readRes 0).data.take 50).length (conn.readRes 0).err,
       .setReadDeadline .CLIENT clientConnectDeadline none,
       .read .CLIENT 50 ((conn.readRes 1).data.take 50).length (conn.readRes 1).err,
       .setReadDeadline .CLIENT clientConnectDeadline none,
       .read .CLIENT 50 ((conn.readRes 2).data.take 50).length (conn.readRes 2).err] ∧
    ((clientRecvGreeting conn).2.2.filter Event.isRead).length = 3 ∧
    (clientRecvGreeting conn).1.1 =
      fillBuf (fillBuf (fillBuf (makeBytes 50) (conn.readRes 0).data) (conn.readRes 1).data)
        (conn.readRes 2).data ∧
    (fillBuf (makeBytes 50) (conn.readRes 0).data).length = 50 ∧
    (fillBuf (fillBuf (makeBytes 50) (conn.readRes 0).data) (conn.readRes 1).data).length = 50 := by
  obtain ⟨hres, htr⟩ := clientRecvGreeting_eq conn h
  refine ⟨htr, ?_, ?_, ?_, ?_, ?_⟩
  · rw [htr]
    cases h0 : (conn.readRes 0).err <;> cases h1 : (conn.readRes 1).err <;>
      cases h2 : (conn.readRes 2).err <;>
      simp [readTry, h0, h1, h2, Event.isReadStep]
  · rw [htr]
    cases h0 : (conn.readRes 0).err <;> cases h1 : (conn.readRes 1).err <;>
      cases h2 : (conn.readRes 2).err <;>
      simp [readTry, h0, h1, h2, Event.isRead]
  · rw [hres]
  · simp [fillBuf_length, makeBytes_length]
  · simp [fillBuf_length, makeBytes_length]

/-- Witness of C2: a connection whose first read succeeds and whose later
reads time out still goes through the three passes. -/
theorem clientRecvGreeting_always_three_reads_witness :
    (∀ i, i < 3 → answeredConn.setReadDeadlineRes i = none) ∧
    ((clientRecvGreeting answeredConn).2.2.filter Event.isRead).length = 3 :=
  ⟨fun _ _ => rfl, (clientRecvGreeting_always_three_reads answeredConn (fun _ _ => rfl)).2.2.1⟩

/-- C8: `clientSayHello` first sets the write deadline to
`now + clientConnectDeadline`; when that fails it returns that error and
writes nothing; otherwise it issues one `Write` of the six bytes of `Hello!`
and nothing else.  It returns nil exactly when `SetWriteDeadline` succeeded,
`Write` returned no error and the count is 6.  A `Write` without error and
with a count `n` other than 6 gives the error built by `fmt.Errorf` from 6 and
`n`, which is no error of the connection. -/
theorem clientSayHello_contract (conn : Conn) :
    (∀ e, conn.setWriteDeadlineRes 0 = some e →
      (clientSayHello conn).1 = some e ∧
      (clientSayHello conn).2.2 = [.setWriteDeadline .CLIENT clientConnectDeadline (some e)]) ∧
    (conn.setWriteDeadlineRes 0 = none →
      (clientSayHello conn).2.2 =
        [.setWriteDeadline .CLIENT clientConnectDeadline none,
         .write .CLIENT [72, 101, 108, 108, 111, 33] (conn.writeRes 0).1 (conn.writeRes 0).2]) ∧
    ((clientSayHello conn).1 = none ↔
      conn.setWriteDeadlineRes 0 = none ∧ (conn.writeRes 0).2 = none ∧ (conn.writeRes 0).1 = 6) ∧
    (∀ n : Int, conn.setWriteDeadlineRes 0 = none → conn.writeRes 0 = (n, none) → n ≠ 6 →
      (clientSayHello conn).1 =
        some (.errorf "Supposed to write %d bytes, but wrote %d" [6, n]) ∧
      ∀ msg, (clientSayHello conn).1 ≠ some (.sys msg)) ∧
    clientConnectDeadline = 3 * Second := by
  refine ⟨?_, ?_, ?_, ?_, rfl⟩
  · intro e he
    simp [clientSayHello, Conn.SetWriteDeadline, he]
  · intro he
    rcases hw : conn.writeRes 0 with ⟨n, _ | e⟩
    · by_cases hn : n = 6 <;>
        simp [clientSayHello, Conn.SetWriteDeadline, Conn.Write, he, hw, bytesOf_hello, hn]
    · simp [clientSayHello, Conn.SetWriteDeadline, Conn.Write, he, hw, bytesOf_hello]
  · rcases hd : conn.setWriteDeadlineRes 0 with _ | e
    · rcases hw : conn.writeRes 0 with ⟨n, _ | e⟩
      · by_cases hn : n = 6 <;>
          simp [clientSayHello, Conn.SetWriteDeadline, Conn.Write, hd, hw, bytesOf_hello, hn]
      · simp [clientSayHello, Conn.SetWriteDeadline, Conn.Write, hd, hw, bytesOf_hello]
    · simp [clientSayHello, Conn.SetWriteDeadline, hd]
  · intro n he hw hn
    simp [clientSayHello, Conn.SetWriteDeadline, Conn.Write, he, hw, bytesOf_hello, hn]

/-- Witness of C8: a write that takes 4 of the 6 bytes gives the short-write
error naming 6 and 4. -/
theorem clientSayHello_contract_witness :
    (clientSayHello shortWriteConn).1 =
      some (.errorf "Supposed to write %d bytes, but wrote %d" [6, 4]) :=
  ((clientSayHello_contract shortWriteConn).2.2.2.1 4 rfl rfl (by decide)).1

theorem isTalk_facts (ev : Event) (h : ev.isTalk = true) :
    ev.isDial = false ∧ ev.isSleep = false ∧ ev.isConnClose = false ∧ ev.isCloseDone = false := by
  cases ev <;> simp_all [Event.isTalk, Event.isDial, Event.isSleep, Event.isConnClose,
    Event.isCloseDone]

theorem clientSayHello_isTalk (conn : Conn) :
    ∀ ev ∈ (clientSayHello conn).2.2, ev.isTalk = true := by
  rcases hd : conn.setWriteDeadlineRes 0 with _ | e
  · rcases hw : conn.writeRes 0 with ⟨n, _ | e⟩
    · by_cases hn : n = 6 <;>
        simp [clientSayHello, Conn.SetWriteDeadline, Conn.Write, hd, hw, bytesOf_hello, hn,
          Event.isTalk]
    · simp [clientSayHello, Conn.SetWriteDeadline, Conn.Write, hd, hw, Event.isTalk]
  · simp [clientSayHello, Conn.SetWriteDeadline, hd, Event.isTalk]

theorem clientSayHello_closeRes (conn : Conn) :
    (clientSayHello conn).2.1.closeRes = conn.closeRes := by
  rcases hd : conn.setWriteDeadlineRes 0 with _ | e
  · rcases hw : conn.writeRes 0 with ⟨n, _ | e⟩
    · by_cases hn : n = 6 <;>
        simp [clientSayHello, Conn.SetWriteDeadline, Conn.Write, hd, hw, bytesOf_hello, hn]
    · simp [clientSayHello, Conn.SetWriteDeadline, Conn.Write, hd, hw]
  · simp [clientSayHello, Conn.SetWriteDeadline, hd]

theorem recvLoop_isTalk (retries : Nat) : ∀ (buf : List Byte) (err : Option GoError) (conn : Conn),
    ∀ ev ∈ (clientRecvGreetingLoop retries buf err conn).2.2, ev.isTalk = true := by
  induction retries with
  | zero => intro buf err conn; simp [clientRecvGreetingLoop]
  | succ n ih =>
    intro buf err conn
    rcases hd : conn.setReadDeadlineRes 0 with _ | e
    · have ih1 := ih (fillBuf buf (conn.readRes 0).data) none
        { conn with setReadDeadlineRes := next conn.setReadDeadlineRes, readRes := next conn.readRes }
      rcases hr : (conn.readRes 0).err with _ | e <;>
        simp [clientRecvGreetingLoop, Conn.SetReadDeadline, Conn.Read, hd, hr, Event.isTalk] <;>
        exact ih1
    · simp [clientRecvGreetingLoop, Conn.SetReadDeadline, hd, Event.isTalk]

theorem recvLoop_closeRes (retries : Nat) : ∀ (buf : List Byte) (err : Option GoError) (conn : Conn),
    (clientRecvGreetingLoop retries buf err conn).2.1.closeRes = conn.closeRes := by
  induction retries with
  | zero => intro buf err conn; simp [clientRecvGreetingLoop]
  | succ n ih =>
    intro buf err conn
    rcases hd : conn.setReadDeadlineRes 0 with _ | e
    · have ih1 := ih (fillBuf buf (conn.readRes 0).data) none
        { conn with setReadDeadlineRes := next conn.setReadDeadlineRes, readRes := next conn.readRes }
      simp [clientRecvGreetingLoop, Conn.SetReadDeadline, Conn.Read, hd]
      exact ih1
    · simp [clientRecvGreetingLoop, Conn.SetReadDeadline, hd]

theorem clientSayHello_no_read (conn : Conn) :
    ∀ ev ∈ (clientSayHello conn).2.2, ev.isReadStep = false := by
  rcases hd : conn.setWriteDeadlineRes 0 with _ | e
  · rcases hw : conn.writeRes 0 with ⟨n, _ | e⟩
    · by_cases hn : n = 6 <;>
        simp [clientSayHello, Conn.SetWriteDeadline, Conn.Write, hd, hw, bytesOf_hello, hn,
          Event.isReadStep]
    · simp [clientSayHello, Conn.SetWriteDeadline, Conn.Write, hd, hw, Event.isReadStep]
  · simp [clientSayHello, Conn.SetWriteDeadline, hd, Event.isReadStep]

theorem clientTalk_isTalk (conn : Conn) : ∀ ev ∈ (clientTalk conn).2, ev.isTalk = true := by
  have h1 := clientSayHello_isTalk conn
  rcases h : clientSayHello conn with ⟨_ | e, conn1, evs⟩
  · have h2 := recvLoop_isTalk 3 (makeBytes 50) none conn1
    rw [h] at h1
    rcases hr : clientRecvGreeting conn1 with ⟨⟨res, _ | e⟩, conn2, evs2⟩ <;>
    · rw [clientRecvGreeting] at hr
      rw [hr] at h2
      simp only [clientTalk, h, clientRecvGreeting, hr]
      intro ev hev
      simp only [List.mem_append, List.mem_cons, List.mem_singleton, List.not_mem_nil,
        or_false] at hev
      rcases hev with ((hev | hev | hev) | hev) | hev
      · exact h1 ev hev
      · subst hev; rfl
      · subst hev; rfl
      · exact h2 ev hev
      · subst hev; rfl
  · rw [h] at h1
    simp only [clientTalk, h]
    intro ev hev
    simp only [List.mem_append, List.mem_singleton] at hev
    rcases hev with hev | hev
    · exact h1 ev hev
    · subst hev; rfl

theorem clientTalk_closeRes (conn : Conn) : (clientTalk conn).1.closeRes = conn.closeRes := by
  have h1 := clientSayHello_closeRes conn
  rcases h : clientSayHello conn with ⟨_ | e, conn1, evs⟩
  · have h2 := recvLoop_closeRes 3 (makeBytes 50) none conn1
    rw [h] at h1
    rcases hr : clientRecvGreeting conn1 with ⟨⟨res, _ | e⟩, conn2, evs2⟩ <;>
    · rw [clientRecvGreeting] at hr
      rw [hr] at h2
      simp only [clientTalk, h, clientRecvGreeting, hr]
      exact h2.trans h1
  · rw [h] at h1
    simpa only [clientTalk, h] using h1

theorem clientTalk_read_only_after_hello (conn : Conn)
    (h : (clientTalk conn).2.any Event.isReadStep = true) : (clientSayHello conn).1 = none := by
  have h1 := clientSayHello_no_read conn
  rcases hs : clientSayHello conn with ⟨_ | e, conn1, evs⟩
  · rfl
  · rw [hs] at h1
    simp only [clientTalk, hs, List.any_append, Bool.or_eq_true, List.any_eq_true] at h
    rcases h with ⟨ev, hev, hr⟩ | ⟨ev, hev, hr⟩
    · rw [h1 ev hev] at hr; exact absurd hr (by decide)
    · simp only [List.mem_singleton] at hev
      subst hev
      simp [Event.isReadStep] at hr

theorem clientClose_eq (conn : Conn) :
    clientClose conn = [.connClose .CLIENT (conn.closeRes 0)] ++
      (match conn.closeRes 0 with
        | some err => [.printf .CLIENT "Failed to close connection: %s\n" [.errText err]]
        | none => []) ++ [.printf .CLIENT "Connection closed.\n" []] := by
  rcases h : conn.closeRes 0 with _ | e <;> simp [clientClose, Conn.Close, h]

theorem clientConnected_plain (a : Int) (conn : Conn) :
    ∀ ev ∈ clientConnected a conn,
      ev.isDial = false ∧ ev.isSleep = false ∧ ev.isCloseDone = false := by
  intro ev hev
  simp only [clientConnected, clientClose_eq, List.mem_append, List.mem_singleton] at hev
  rcases hev with (hev | hev) | ((hev | hev) | hev)
  · subst hev; simp [Event.isDial, Event.isSleep, Event.isCloseDone]
  · have := isTalk_facts ev (clientTalk_isTalk conn ev hev)
    exact ⟨this.1, this.2.1, this.2.2.2⟩
  · subst hev; simp [Event.isDial, Event.isSleep, Event.isCloseDone]
  · rcases hc : (clientTalk conn).1.closeRes 0 with _ | e
    · simp [hc] at hev
    · simp only [hc, List.mem_singleton] at hev
      subst hev; simp [Event.isDial, Event.isSleep, Event.isCloseDone]
  · subst hev; simp [Event.isDial, Event.isSleep, Event.isCloseDone]

theorem clientConnected_filter_dialSleep (a : Int) (conn : Conn) :
    (clientConnected a conn).filter (fun ev => ev.isDial || ev.isSleep) = [] := by
  rw [List.filter_eq_nil_iff]
  intro ev hev
  have := clientConnected_plain a conn ev hev
  simp [this.1, this.2.1]

theorem clientConnected_filter_dial (a : Int) (conn : Conn) :
    (clientConnected a conn).filter Event.isDial = [] := by
  rw [List.filter_eq_nil_iff]
  intro ev hev
  simp [(clientConnected_plain a conn ev hev).1]

theorem clientConnected_filter_sleep (a : Int) (conn : Conn) :
    (clientConnected a conn).filter Event.isSleep = [] := by
  rw [List.filter_eq_nil_iff]
  intro ev hev
  simp [(clientConnected_plain a conn ev hev).2.1]

theorem clientConnected_filter_closeDone (a : Int) (conn : Conn) :
    (clientConnected a conn).filter Event.isCloseDone = [] := by
  rw [List.filter_eq_nil_iff]
  intro ev hev
  simp [(clientConnected_plain a conn ev hev).2.2]

/-- C3: when every one of the `connectRetries` dials fails, the client run
makes exactly 3 dials, each failing, writes nothing, reads nothing, closes no
connection, and ends with the one `close(donec)` of the run. -/
theorem client_all_dials_fail (addr : String) (dial : Nat → Except GoError Conn)
    (h : ∀ i, i < connectRetries → ∃ e, dial i = .error e) :
    connectRetries = 3 ∧
    (client addr dial).filter Event.isDial =
      [.dial addr (dialErr (dial 0)), .dial addr (dialErr (dial 1)), .dial addr (dialErr (dial 2))] ∧
    (∀ i, i < 3 → dialErr (dial i) ≠ none) ∧
    (client addr dial).filter Event.isWrite = [] ∧
    (client addr dial).filter Event.isConnUse = [] ∧
    (client addr dial).filter Event.isRead = [] ∧
    (client addr dial).filter Event.isConnClose = [] ∧
    (client addr dial).filter Event.isCloseDone = [.closeDone .CLIENT] ∧
    (client addr dial).getLast? = some (.closeDone .CLIENT) := by
  obtain ⟨e0, h0⟩ := h 0 (by decide)
  obtain ⟨e1, h1⟩ := h 1 (by decide)
  obtain ⟨e2, h2⟩ := h 2 (by decide)
  refine ⟨rfl, ?_, ?_, ?_, ?_, ?_, ?_, ?_, ?_⟩
  · simp [client, clientLoop, connectRetries, next, h0, h1, h2, dialErr, Event.isDial]
  · intro i hi
    obtain ⟨e, he⟩ := h i hi
    simp [he, dialErr]
  all_goals
    simp [client, clientLoop, connectRetries, next, h0, h1, h2, Event.isWrite, Event.isConnUse,
      Event.isRead, Event.isConnClose, Event.isCloseDone]

/-- Witness of C3: three refused dials. -/
theorem client_all_dials_fail_witness :
    (∀ i, i < connectRetries → ∃ e, deadDial i = .error e) ∧
    ((client "/tmp/sock" deadDial).filter Event.isDial).length = 3 ∧
    (client "/tmp/sock" deadDial).getLast? = some (.closeDone .CLIENT) :=
  have h := client_all_dials_fail "/tmp/sock" deadDial (fun _ _ => ⟨refusedErr, rfl⟩)
  ⟨fun _ _ => ⟨refusedErr, rfl⟩, by rw [h.2.1]; rfl, h.2.2.2.2.2.2.2.2⟩

/-- C4: when the first dial that succeeds is attempt `k` (1 to 3), the dials
and sleeps of the run are a dial, then a sleep of `clientRetryWait` and a
dial for each further attempt up to the `k`-th, and nothing more, whatever
the connection answers afterwards: `k` dials, the last one the successful
one, and `k - 1` sleeps. -/
theorem client_dials_until_first_success (addr : String) (dial : Nat → Except GoError Conn)
    (k : Nat) (conn : Conn) (hk1 : 1 ≤ k) (hk3 : k ≤ connectRetries)
    (hfail : ∀ i, i + 1 < k → ∃ e, dial i = .error e) (hok : dial (k - 1) = .ok conn) :
    (client addr dial).filter (fun ev => ev.isDial || ev.isSleep) = dialsAndSleeps addr dial k ∧
    ((client addr dial).filter Event.isDial).length = k ∧
    (client addr dial).filter Event.isSleep = List.replicate (k - 1) (.sleep clientRetryWait) ∧
    (dialsAndSleeps addr dial k).head? = some (.dial addr (dialErr (dial 0))) ∧
    (dialsAndSleeps addr dial k).getLast? = some (.dial addr none) := by
  unfold connectRetries at hk3
  interval_cases k
  · simp at hok
    simp only [client, clientLoop, connectRetries, next, hok, List.filter_append,
      clientConnected_filter_dialSleep, clientConnected_filter_dial, clientConnected_filter_sleep]
    simp [dialsAndSleeps, dialErr, Event.isDial, Event.isSleep, hok]
  · obtain ⟨e0, h0⟩ := hfail 0 (by decide)
    simp at hok
    simp only [client, clientLoop, connectRetries, next, h0, hok, List.filter_append,
      clientConnected_filter_dialSleep, clientConnected_filter_dial, clientConnected_filter_sleep]
    simp [dialsAndSleeps, dialErr, Event.isDial, Event.isSleep, h0, hok]
  · obtain ⟨e0, h0⟩ := hfail 0 (by decide)
    obtain ⟨e1, h1⟩ := hfail 1 (by decide)
    simp at hok
    simp only [client, clientLoop, connectRetries, next, h0, h1, hok, List.filter_append,
      clientConnected_filter_dialSleep, clientConnected_filter_dial, clientConnected_filter_sleep]
    simp [dialsAndSleeps, dialErr, Event.isDial, Event.isSleep, h0, h1, hok, List.replicate]

/-- Witness of C4: the first dial is refused, the second connects. -/
theorem client_dials_until_first_success_witness :
    (1 ≤ 2 ∧ 2 ≤ connectRetries) ∧
    (client "/tmp/sock" secondDial).filter (fun ev => ev.isDial || ev.isSleep) =
      [.dial "/tmp/sock" (some refusedErr), .sleep clientRetryWait, .dial "/tmp/sock" none] :=
  ⟨by decide,
    (client_dials_until_first_success "/tmp/sock" secondDial 2
      { silentConn with setWriteDeadlineRes := fun _ => some (.sys "use of closed connection") }
      (by decide) (by decide)
      (fun i hi => ⟨refusedErr, by have h0 : i = 0 := by omega
                                   subst h0; rfl⟩) rfl).1⟩

theorem client_eq_connected (addr : String) (dial : Nat → Except GoError Conn) (k : Nat)
    (conn : Conn) (hk : k < connectRetries) (hfail : ∀ i, i < k → ∃ e, dial i = .error e)
    (hok : dial k = .ok conn) :
    ∃ hd, client addr dial = hd ++ clientConnected ((k : Int) + 1) conn ++ [.closeDone .CLIENT] ∧
      ∀ ev ∈ hd, ev.isConnClose = false ∧ ev.isCloseDone = false ∧ ev.isConnUse = false ∧
        ev.isReadStep = false := by
  unfold connectRetries at hk
  interval_cases k
  · refine ⟨[.printf .CLIENT "Connect attempt %d...\n" [.int 1], .dial addr none], ?_, ?_⟩
    · simp [client, clientLoop, connectRetries, next, hok]
    · simp [Event.isConnClose, Event.isCloseDone, Event.isConnUse, Event.isReadStep]
  · obtain ⟨e0, h0⟩ := hfail 0 (by decide)
    refine ⟨[.printf .CLIENT "Connect attempt %d...\n" [.int 1], .dial addr (some e0),
      .printf .CLIENT "Client connect failure with err=%s\n" [.errText e0],
      .printf .CLIENT "Waiting to retry...\n" [], .sleep clientRetryWait,
      .printf .CLIENT "Connect attempt %d...\n" [.int 2], .dial addr none], ?_, ?_⟩
    · simp [client, clientLoop, connectRetries, next, h0, hok]
    · simp [Event.isConnClose, Event.isCloseDone, Event.isConnUse, Event.isReadStep]
  · obtain ⟨e0, h0⟩ := hfail 0 (by decide)
    obtain ⟨e1, h1⟩ := hfail 1 (by decide)
    refine ⟨[.printf .CLIENT "Connect attempt %d...\n" [.int 1], .dial addr (some e0),
      .printf .CLIENT "Client connect failure with err=%s\n" [.errText e0],
      .printf .CLIENT "Waiting to retry...\n" [], .sleep clientRetryWait,
      .printf .CLIENT "Connect attempt %d...\n" [.int 2], .dial addr (some e1),
      .printf .CLIENT "Client connect failure with err=%s\n" [.errText e1],
      .printf .CLIENT "Waiting to retry...\n" [], .sleep clientRetryWait,
      .printf .CLIENT "Connect attempt %d...\n" [.int 3], .dial addr none], ?_, ?_⟩
    · simp [client, clientLoop, connectRetries, next, h0, h1, hok]
    · simp [Event.isConnClose, Event.isCloseDone, Event.isConnUse, Event.isReadStep]

theorem isTalk_not_close (ev : Event) (h : ev.isTalk = true) :
    ev.isConnClose = false ∧ ev.isCloseDone = false :=
  ⟨(isTalk_facts ev h).2.2.1, (isTalk_facts ev h).2.2.2⟩

/-- C9: in every client run in which a dial succeeds, whatever the greeting
write and the response reads answer, `Close` is called on the connection
exactly once: no close and no `close(donec)` comes before it, no further
close and no read, write or deadline call on the connection comes after it,
and the one `close(donec)` of the run comes after it, as the last event.  A
read, or the setting of a read deadline, happens only in a run whose
`clientSayHello` returned nil. -/
theorem client_closes_connection_once (addr : String) (dial : Nat → Except GoError Conn)
    (k : Nat) (conn : Conn) (hk : k < connectRetries)
    (hfail : ∀ i, i < k → ∃ e, dial i = .error e) (hok : dial k = .ok conn) :
    ∃ pre post, client addr dial = pre ++ [.connClose .CLIENT (conn.closeRes 0)] ++ post ∧
      (∀ ev ∈ pre, ev.isConnClose = false ∧ ev.isCloseDone = false) ∧
      (∀ ev ∈ post, ev.isConnClose = false ∧ ev.isConnUse = false) ∧
      post.filter Event.isCloseDone = [.closeDone .CLIENT] ∧
      post.getLast? = some (.closeDone .CLIENT) ∧
      ((client addr dial).any Event.isReadStep = true → (clientSayHello conn).1 = none) := by
  obtain ⟨hd, heq, hhd⟩ := client_eq_connected addr dial k conn hk hfail hok
  refine ⟨hd ++ [.printf .CLIENT "Connect successful after %d attempts!\n" [.int ((k : Int) + 1)]] ++
      (clientTalk conn).2,
    (match conn.closeRes 0 with
      | some err => [.printf .CLIENT "Failed to close connection: %s\n" [.errText err]]
      | none => []) ++ [.printf .CLIENT "Connection closed.\n" [], .closeDone .CLIENT],
    ?_, ?_, ?_, ?_, ?_, ?_⟩
  · rw [heq]
    simp [clientConnected, clientClose_eq, clientTalk_closeRes]
  · intro ev hev
    simp only [List.mem_append, List.mem_singleton] at hev
    rcases hev with (hev | hev) | hev
    · exact ⟨(hhd ev hev).1, (hhd ev hev).2.1⟩
    · subst hev; simp [Event.isConnClose, Event.isCloseDone]
    · exact isTalk_not_close ev (clientTalk_isTalk conn ev hev)
  · rcases conn.closeRes 0 with _ | e <;> simp [Event.isConnClose, Event.isConnUse]
  · rcases conn.closeRes 0 with _ | e <;> simp [Event.isCloseDone]
  · rcases conn.closeRes 0 with _ | e <;> simp
  · intro hread
    apply clientTalk_read_only_after_hello
    have hhd2 : hd.any Event.isReadStep = false := by
      rw [List.any_eq_false]
      intro ev hev
      simp [(hhd ev hev).2.2.2]
    rw [heq] at hread
    simp only [clientConnected, clientClose_eq, List.any_append, hhd2, Bool.false_or] at hread
    rcases hc : (clientTalk conn).1.closeRes 0 with _ | e
    · rw [hc] at hread
      simpa [Event.isReadStep] using hread
    · rw [hc] at hread
      simpa [Event.isReadStep] using hread

/-- Witness of C9: the first dial connects, the greeting is cut short, the
close fails; the connection is still closed once. -/
theorem client_closes_connection_once_witness :
    0 < connectRetries ∧
    ∃ pre post, client "/tmp/sock" firstDial =
        pre ++ [.connClose .CLIENT (some (.sys "close: bad file descriptor"))] ++ post ∧
      (∀ ev ∈ pre, ev.isConnClose = false ∧ ev.isCloseDone = false) ∧
      (∀ ev ∈ post, ev.isConnClose = false ∧ ev.isConnUse = false) ∧
      post.filter Event.isCloseDone = [.closeDone .CLIENT] ∧
      post.getLast? = some (.closeDone .CLIENT) ∧
      ((client "/tmp/sock" firstDial).any Event.isReadStep = true →
        (clientSayHello
          { shortWriteConn with closeRes := fun _ => some (.sys "close: bad file descriptor") }).1 =
          none) :=
  ⟨by decide, client_closes_connection_once "/tmp/sock" firstDial 0
    { shortWriteConn with closeRes := fun _ => some (.sys "close: bad file descriptor") }
    (by decide) (fun i hi => absurd hi (Nat.not_lt_zero i)) rfl⟩


theorem fillBuf_makeBytes (n : Nat) (g : List Byte) (hn : g.length ≤ n) :
    fillBuf (makeBytes n) g = g ++ List.replicate (n - g.length) 0 := by
  unfold fillBuf makeBytes
  rw [List.length_replicate, List.take_of_length_le hn, List.drop_replicate]

/-- C5 (counterexample): the six bytes of `Hello!` arrive in one successful
read, and the message `serverReadGreeting` returns has 50 bytes, not 6, and
is not the greeting. -/
theorem serverReadGreeting_not_exact :
    helloConn.setReadDeadlineRes 0 = none ∧
    helloConn.readRes 0 = ⟨bytesOf "Hello!", none⟩ ∧
    (bytesOf "Hello!").length = 6 ∧
    (serverReadGreeting helloConn).1.2 = none ∧
    (serverReadGreeting helloConn).1.1.length = 50 ∧
    (serverReadGreeting helloConn).1.1 ≠ bytesOf "Hello!" := by
  refine ⟨rfl, rfl, by decide, by decide, by decide, by decide⟩

/-- C5 (amended): when a greeting of `n ≤ 50` bytes arrives in one successful
read, `serverReadGreeting` returns, with a nil error, the whole 50-byte
buffer: the `n` bytes of the greeting followed by `50 - n` zero bytes.  Its
first `n` bytes are the greeting, and the responder logs that buffer. -/
theorem serverReadGreeting_returns_buffer (conn : Conn) (g : List Byte)
    (hd : conn.setReadDeadlineRes 0 = none) (hr : conn.readRes 0 = ⟨g, none⟩)
    (hn : g.length ≤ 50) :
    (serverReadGreeting conn).1 = (g ++ List.replicate (50 - g.length) 0, none) ∧
    (serverReadGreeting conn).1.1.length = 50 ∧
    (serverReadGreeting conn).1.1.take g.length = g ∧
    (serverReadGreeting conn).2.2 =
      [.setReadDeadline .SERVER serverConnectDeadline none, .read .SERVER 50 g.length none] ∧
    ∀ ln : Listener, ln.acceptRes 0 = .ok conn →
      Event.printf .SERVER "Got greeting from client: %s\n"
        [.bytes (g ++ List.replicate (50 - g.length) 0)] ∈
        (serverListenForHelloAndRespond ln).2.2 := by
  have hres : (serverReadGreeting conn) =
      ((g ++ List.replicate (50 - g.length) 0, none),
        { conn with setReadDeadlineRes := next conn.setReadDeadlineRes, readRes := next conn.readRes },
        [.setReadDeadline .SERVER serverConnectDeadline none, .read .SERVER 50 g.length none]) := by
    have ht : List.take 50 g = g := List.take_of_length_le hn
    simp [serverReadGreeting, Conn.SetReadDeadline, Conn.Read, hd, hr, fillBuf_makeBytes 50 g hn,
      makeBytes_length, ht]
  refine ⟨by rw [hres], ?_, ?_, by rw [hres], ?_⟩
  · rw [hres]
    simp
    omega
  · rw [hres]
    simp
  · intro ln hacc
    rcases hw : serverRespond
      { conn with setReadDeadlineRes := next conn.setReadDeadlineRes, readRes := next conn.readRes }
      with ⟨_ | e, conn2, evs2⟩ <;>
      simp [serverListenForHelloAndRespond, hacc, hres, hw]

/-- Witness of C5 (amended): the greeting `Hello!`. -/
theorem serverReadGreeting_returns_buffer_witness :
    (bytesOf "Hello!").length ≤ 50 ∧
    (serverReadGreeting helloConn).1 = (bytesOf "Hello!" ++ List.replicate 44 0, none) :=
  ⟨by decide, (serverReadGreeting_returns_buffer helloConn (bytesOf "Hello!") rfl rfl
    (by decide)).1⟩

/-- C6 (counterexample): the temporary file is made and its removal fails,
and `unixSocketAddr` returns the address with a nil error. -/
theorem unixSocketAddr_ignores_remove_error :
    stuckFile.removeRes = some (.sys "remove: operation not permitted") ∧
    Event.remove "/tmp/unix-domain-sock-timeouts-1" (some (.sys "remove: operation not permitted")) ∈
      (unixSocketAddr stuckFile).2 ∧
    (unixSocketAddr stuckFile).1 = ("/tmp/unix-domain-sock-timeouts-1", none) := by
  refine ⟨rfl, by decide, by decide⟩

/-- C6 (amended): `unixSocketAddr` returns an error exactly when
`ioutil.TempFile` fails, and then that error; otherwise it closes the file,
removes it, and returns its name with a nil error, whatever `Close` and
`Remove` return. -/
theorem unixSocketAddr_error_iff_tempFile_fails (fs : FileSys) :
    (unixSocketAddr fs).1 =
      (match fs.tempFileRes with
        | .error err => ("", some err)
        | .ok addr => (addr, none)) ∧
    ((unixSocketAddr fs).1.2 ≠ none ↔ ∃ err, fs.tempFileRes = .error err) ∧
    (unixSocketAddr fs).2 =
      (match fs.tempFileRes with
        | .error err => [.tempFile (some err)]
        | .ok addr => [.tempFile none, .fileClose fs.fileCloseRes, .remove addr fs.removeRes]) := by
  rcases h : fs.tempFileRes with e | a <;> simp [unixSocketAddr, h]

/-- C10: when the accepted connection fails the greeting read with error `e`
(in `SetReadDeadline` or in `Read`), `serverListenForHelloAndRespond` returns
`e`; it has made at most one `Read` and no `Write`, has sent the connection
on `connc` exactly once, has not closed the connection, and its one
`close(donec)` is its last event. -/
theorem server_aborts_on_failed_read (ln : Listener) (conn : Conn) (e : GoError)
    (hacc : ln.acceptRes 0 = .ok conn)
    (hfail : conn.setReadDeadlineRes 0 = some e ∨
      (conn.setReadDeadlineRes 0 = none ∧ (conn.readRes 0).err = some e)) :
    (serverListenForHelloAndRespond ln).1 = some e ∧
    ((serverListenForHelloAndRespond ln).2.2.filter Event.isRead).length ≤ 1 ∧
    (serverListenForHelloAndRespond ln).2.2.filter Event.isWrite = [] ∧
    (serverListenForHelloAndRespond ln).2.2.filter Event.isSendConn = [.sendConn] ∧
    (serverListenForHelloAndRespond ln).2.2.filter Event.isCloseDone = [.closeDone .SERVER] ∧
    (serverListenForHelloAndRespond ln).2.2.getLast? = some (.closeDone .SERVER) ∧
    (serverListenForHelloAndRespond ln).2.2.filter Event.isConnClose = [] := by
  rcases hfail with hd | ⟨hd, hr⟩
  · simp [serverListenForHelloAndRespond, serverReadGreeting, Conn.SetReadDeadline, hacc, hd,
      Event.isRead, Event.isWrite, Event.isSendConn, Event.isCloseDone, Event.isConnClose]
  · simp [serverListenForHelloAndRespond, serverReadGreeting, Conn.SetReadDeadline, Conn.Read, hacc,
      hd, hr, Event.isRead, Event.isWrite, Event.isSendConn, Event.isCloseDone, Event.isConnClose]

/-- Witness of C10: nothing arrives on the accepted connection before the
read deadline. -/
theorem server_aborts_on_failed_read_witness :
    (serverListenForHelloAndRespond quietListener).1 = some timeoutErr ∧
    (serverListenForHelloAndRespond quietListener).2.2.filter Event.isWrite = [] :=
  have h := server_aborts_on_failed_read quietListener silentConn timeoutErr rfl (Or.inr ⟨rfl, rfl⟩)
  ⟨h.1, h.2.2.1⟩

theorem errorsLoggedOf_append (who : Role) (a b : List Event)
    (ha : errorsLoggedOf who a = true) (hb : errorsLoggedOf who b = true) :
    errorsLoggedOf who (a ++ b) = true := by
  induction a with
  | nil => simpa using hb
  | cons ev rest ih =>
    simp only [errorsLoggedOf, Bool.and_eq_true] at ha
    simp only [List.cons_append, errorsLoggedOf, Bool.and_eq_true]
    refine ⟨?_, ih ha.2⟩
    have h1 := ha.1
    rcases hf : ev.failure with _ | ⟨w, e⟩
    · rfl
    · rw [hf] at h1
      simp only [Bool.or_eq_true] at h1 ⊢
      rcases h1 with h1 | h1
      · exact Or.inl h1
      · right
        show (rest ++ b).any (Event.reports who.tag e) = true
        rw [List.any_append, h1]
        rfl

theorem errorsLoggedOf_of_quiet (who : Role) (l : List Event)
    (h : ∀ ev ∈ l, ∀ e, ev.failure ≠ some (who, e)) : errorsLoggedOf who l = true := by
  induction l with
  | nil => rfl
  | cons ev rest ih =>
    simp only [errorsLoggedOf, Bool.and_eq_true]
    refine ⟨?_, ih (fun ev hev => h ev (List.mem_cons_of_mem _ hev))⟩
    rcases hf : ev.failure with _ | ⟨w, e⟩
    · rfl
    · have hne : w ≠ who := by
        intro hw
        subst hw
        exact h ev (List.mem_cons_self _ _) e hf
      simp [hne]

theorem mem_interleave (ev : Event) (s : List Bool) (xs ys : List Event) :
    ev ∈ interleave s xs ys ↔ ev ∈ xs ∨ ev ∈ ys := by
  induction s, xs, ys using interleave.induct with
  | case1 s ys => simp [interleave]
  | case2 s x xs => simp [interleave]
  | case3 x xs y ys =>
    simp only [interleave, List.mem_append, List.mem_cons]
  | case4 s x xs y ys ih =>
    simp only [interleave, List.mem_cons, ih]
    tauto
  | case5 s x xs y ys ih =>
    simp only [interleave, List.mem_cons, ih]
    tauto

theorem errorsLoggedOf_interleave (who : Role) (s : List Bool) (xs ys : List Event)
    (hx : ∀ ev ∈ xs, ∀ e, ev.failure ≠ some (who, e)) (hy : errorsLoggedOf who ys = true) :
    errorsLoggedOf who (interleave s xs ys) = true := by
  induction s, xs, ys using interleave.induct with
  | case1 s ys => simpa [interleave] using hy
  | case2 s x xs => simpa [interleave] using errorsLoggedOf_of_quiet who _ hx
  | case3 x xs y ys =>
    simpa [interleave] using errorsLoggedOf_append who _ _ (errorsLoggedOf_of_quiet who _ hx) hy
  | case4 s x xs y ys ih =>
    simp only [interleave, errorsLoggedOf, Bool.and_eq_true]
    refine ⟨?_, ih (fun ev hev => hx ev (List.mem_cons_of_mem _ hev)) hy⟩
    rcases hf : x.failure with _ | ⟨w, e⟩
    · rfl
    · have hne : w ≠ who := by
        intro hw
        subst hw
        exact hx x (List.mem_cons_self _ _) e hf
      simp [hne]
  | case5 s x xs y ys ih =>
    simp only [errorsLoggedOf, Bool.and_eq_true] at hy
    simp only [interleave, errorsLoggedOf, Bool.and_eq_true]
    refine ⟨?_, ih hx hy.2⟩
    have h1 := hy.1
    rcases hf : y.failure with _ | ⟨w, e⟩
    · rfl
    · rw [hf] at h1
      simp only [Bool.or_eq_true, List.any_eq_true] at h1 ⊢
      rcases h1 with h1 | ⟨ev, hev, hr⟩
      · exact Or.inl h1
      · exact Or.inr ⟨ev, (mem_interleave ev s (x :: xs) ys).mpr (Or.inr hev), hr⟩

theorem recvLoop_logged (retries : Nat) :
    ∀ (buf : List Byte) (err : Option GoError) (conn : Conn) (tail : List Event),
      errorsLoggedOf .CLIENT tail = true →
      (∀ e, (clientRecvGreetingLoop retries buf err conn).1.2 = some e →
        tail.any (Event.reports .CLIENT e) = true) →
      errorsLoggedOf .CLIENT ((clientRecvGreetingLoop retries buf err conn).2.2 ++ tail) = true := by
  induction retries with
  | zero => intro buf err conn tail ht _; simpa [clientRecvGreetingLoop] using ht
  | succ n ih =>
    intro buf err conn tail ht hres
    rcases hd : conn.setReadDeadlineRes 0 with _ | e
    · have ih1 := ih (fillBuf buf (conn.readRes 0).data) none
        { conn with setReadDeadlineRes := next conn.setReadDeadlineRes, readRes := next conn.readRes }
        tail ht
      rcases hr : (conn.readRes 0).err with _ | e
      · simp only [clientRecvGreetingLoop, Conn.SetReadDeadline, Conn.Read, hd, hr] at hres ⊢
        refine (congrArg _ ?_).trans (errorsLoggedOf_append _
          [.printf .CLIENT "Read try %d...\n" [.int (4 - ((n + 1 : Nat) : Int))],
           .setReadDeadline .CLIENT clientConnectDeadline none,
           .read .CLIENT buf.length ((conn.readRes 0).data.take buf.length).length none]
          _ ?_ (ih1 hres))
        · simp
        · simp [errorsLoggedOf, Event.failure]
      · simp only [clientRecvGreetingLoop, Conn.SetReadDeadline, Conn.Read, hd, hr] at hres ⊢
        refine (congrArg _ ?_).trans (errorsLoggedOf_append _
          [.printf .CLIENT "Read try %d...\n" [.int (4 - ((n + 1 : Nat) : Int))],
           .setReadDeadline .CLIENT clientConnectDeadline none,
           .read .CLIENT buf.length ((conn.readRes 0).data.take buf.length).length (some e),
           .printf .CLIENT "Failed to read from server: %s\n" [.errText e]]
          _ ?_ (ih1 hres))
        · simp
        · simp [errorsLoggedOf, Event.failure, Event.reports, Role.tag]
    · simp only [clientRecvGreetingLoop, Conn.SetReadDeadline, hd] at hres ⊢
      have h2 := hres e rfl
      refine (congrArg _ ?_).trans (errorsLoggedOf_append _
          [.printf .CLIENT "Read try %d...\n" [.int (4 - ((n + 1 : Nat) : Int))]] _ ?_
          (?_ : errorsLoggedOf .CLIENT
            (.setReadDeadline .CLIENT clientConnectDeadline (some e) :: tail) = true))
      · simp
      · simp [errorsLoggedOf, Event.failure]
      · simp only [errorsLoggedOf, Event.failure, Role.tag, h2, ht]
        simp

theorem clientTalk_logged (conn : Conn) : errorsLoggedOf .CLIENT (clientTalk conn).2 = true := by
  rcases hd : conn.setWriteDeadlineRes 0 with _ | e
  · rcases hw : conn.writeRes 0 with ⟨n, _ | e⟩
    · by_cases hn : n = 6
      · have hs : clientSayHello conn = (none, { conn with
            setWriteDeadlineRes := next conn.setWriteDeadlineRes, writeRes := next conn.writeRes },
            [.setWriteDeadline .CLIENT clientConnectDeadline none,
             .write .CLIENT (bytesOf "Hello!") n none]) := by
          simp [clientSayHello, Conn.SetWriteDeadline, Conn.Write, hd, hw, bytesOf_hello, hn]
        rcases hr : clientRecvGreeting { conn with
            setWriteDeadlineRes := next conn.setWriteDeadlineRes, writeRes := next conn.writeRes }
          with ⟨⟨res, _ | e⟩, conn2, evs2⟩
        · have h := recvLoop_logged 3 (makeBytes 50) none { conn with
            setWriteDeadlineRes := next conn.setWriteDeadlineRes, writeRes := next conn.writeRes }
            [.printf .CLIENT "Successfully heard back from server: %s\n" [.bytes res]] rfl
          rw [clientRecvGreeting] at hr
          rw [hr] at h
          simp only [clientTalk, hs, clientRecvGreeting, hr]
          have h2 := h (by intro e he; cases he)
          simpa [errorsLoggedOf, Event.failure] using h2
        · have h := recvLoop_logged 3 (makeBytes 50) none { conn with
            setWriteDeadlineRes := next conn.setWriteDeadlineRes, writeRes := next conn.writeRes }
            [.printf .CLIENT "Failed to hear back from server: %s\n" [.errText e]] rfl
          rw [clientRecvGreeting] at hr
          rw [hr] at h
          simp only [clientTalk, hs, clientRecvGreeting, hr]
          have h2 := h (by
            intro e2 he
            simp only [Option.some.injEq] at he
            subst he
            simp [Event.reports])
          simpa [errorsLoggedOf, Event.failure] using h2
      · simp [clientTalk, clientSayHello, Conn.SetWriteDeadline, Conn.Write, hd, hw, bytesOf_hello,
          hn, errorsLoggedOf, Event.failure]
    · simp [clientTalk, clientSayHello, Conn.SetWriteDeadline, Conn.Write, hd, hw, errorsLoggedOf,
        Event.failure, Event.reports, Role.tag]
  · simp [clientTalk, clientSayHello, Conn.SetWriteDeadline, hd, errorsLoggedOf, Event.failure,
      Event.reports, Role.tag]

theorem clientClose_logged (conn : Conn) : errorsLoggedOf .CLIENT (clientClose conn) = true := by
  rcases h : conn.closeRes 0 with _ | e <;>
    simp [clientClose, Conn.Close, h, errorsLoggedOf, Event.failure, Event.reports, Role.tag]

theorem clientConnected_logged (a : Int) (conn : Conn) :
    errorsLoggedOf .CLIENT (clientConnected a conn) = true := by
  unfold clientConnected
  exact errorsLoggedOf_append _ _ _
    (errorsLoggedOf_append _ _ _ (by simp [errorsLoggedOf, Event.failure]) (clientTalk_logged conn))
    (clientClose_logged _)

theorem clientLoop_logged (addr : String) (retries : Nat) :
    ∀ dial, errorsLoggedOf .CLIENT (clientLoop addr retries dial) = true := by
  induction retries with
  | zero => intro dial; rfl
  | succ n ih =>
    intro dial
    unfold clientLoop
    refine errorsLoggedOf_append _ _ _ (errorsLoggedOf_append _ _ _ ?_ ?_) ?_
    · split <;> simp [errorsLoggedOf, Event.failure]
    · simp [errorsLoggedOf, Event.failure]
    · rcases hd : dial 0 with e | conn
      · exact errorsLoggedOf_append _ _ _
          (by simp [errorsLoggedOf, Event.failure, Event.reports, Role.tag]) (ih _)
      · exact errorsLoggedOf_append _ _ _ (by simp [errorsLoggedOf, Event.failure])
          (clientConnected_logged _ _)

theorem client_logged (addr : String) (dial : Nat → Except GoError Conn) :
    errorsLoggedOf .CLIENT (client addr dial) = true :=
  errorsLoggedOf_append _ _ _ (clientLoop_logged addr _ dial)
    (by simp [errorsLoggedOf, Event.failure])

theorem isTalk_isClientSide (ev : Event) (h : ev.isTalk = true) : ev.isClientSide = true := by
  unfold Event.isTalk at h
  split at h <;> first | rfl | cases h

theorem clientConnected_isClientSide (a : Int) (conn : Conn) :
    ∀ ev ∈ clientConnected a conn, ev.isClientSide = true := by
  intro ev hev
  simp only [clientConnected, clientClose_eq, List.mem_append, List.mem_singleton] at hev
  rcases hev with (hev | hev) | ((hev | hev) | hev)
  · subst hev; rfl
  · exact isTalk_isClientSide ev (clientTalk_isTalk conn ev hev)
  · subst hev; rfl
  · rcases hc : (clientTalk conn).1.closeRes 0 with _ | e
    · simp [hc] at hev
    · simp only [hc, List.mem_singleton] at hev
      subst hev; rfl
  · subst hev; rfl

theorem clientLoop_isClientSide (addr : String) (retries : Nat) :
    ∀ dial, ∀ ev ∈ clientLoop addr retries dial, ev.isClientSide = true := by
  induction retries with
  | zero => intro dial ev hev; simp [clientLoop] at hev
  | succ n ih =>
    intro dial ev hev
    unfold clientLoop at hev
    simp only [List.mem_append] at hev
    rcases hev with (hev | hev) | hev
    · split at hev
      · simp only [List.mem_cons, List.mem_singleton, List.not_mem_nil, or_false] at hev
        rcases hev with hev | hev <;> subst hev <;> rfl
      · simp at hev
    · simp only [List.mem_singleton] at hev
      subst hev; rfl
    · rcases hd : dial 0 with e | conn
      · simp only [hd, List.mem_append, List.mem_cons, List.mem_singleton, List.not_mem_nil,
          or_false] at hev
        rcases hev with (hev | hev) | hev
        · subst hev; rfl
        · subst hev; rfl
        · exact ih _ ev hev
      · simp only [hd, List.mem_append, List.mem_singleton] at hev
        rcases hev with hev | hev
        · subst hev; rfl
        · exact clientConnected_isClientSide _ _ ev hev

theorem client_isClientSide (addr : String) (dial : Nat → Except GoError Conn) :
    ∀ ev ∈ client addr dial, ev.isClientSide = true := by
  intro ev hev
  simp only [client, List.mem_append, List.mem_singleton] at hev
  rcases hev with hev | hev
  · exact clientLoop_isClientSide addr _ dial ev hev
  · subst hev; rfl

theorem serverReadGreeting_isServerSide (conn : Conn) :
    ∀ ev ∈ (serverReadGreeting conn).2.2, ev.isServerSide = true := by
  rcases hd : conn.setReadDeadlineRes 0 with _ | e
  · rcases hr : (conn.readRes 0).err with _ | e <;>
      simp [serverReadGreeting, Conn.SetReadDeadline, Conn.Read, hd, hr, Event.isServerSide]
  · simp [serverReadGreeting, Conn.SetReadDeadline, hd, Event.isServerSide]

theorem serverRespond_isServerSide (conn : Conn) :
    ∀ ev ∈ (serverRespond conn).2.2, ev.isServerSide = true := by
  rcases hd : conn.setWriteDeadlineRes 0 with _ | e
  · rcases hw : conn.writeRes 0 with ⟨n, _ | e⟩
    · by_cases hn : n = 10 <;>
        simp [serverRespond, Conn.SetWriteDeadline, Conn.Write, hd, hw, bytesOf, hn,
          Event.isServerSide, Arg.isErrText]
    · simp [serverRespond, Conn.SetWriteDeadline, Conn.Write, hd, hw, Event.isServerSide]
  · simp [serverRespond, Conn.SetWriteDeadline, hd, Event.isServerSide]

theorem server_isServerSide (ln : Listener) :
    ∀ ev ∈ (serverListenForHelloAndRespond ln).2.2, ev.isServerSide = true := by
  rcases ha : ln.acceptRes 0 with e | conn
  · simp [serverListenForHelloAndRespond, ha, Event.isServerSide]
  · have h1 := serverReadGreeting_isServerSide conn
    rcases hr : serverReadGreeting conn with ⟨⟨msg, _ | e⟩, conn1, evs⟩
    · have h2 := serverRespond_isServerSide conn1
      rw [hr] at h1
      rcases hw : serverRespond conn1 with ⟨_ | e, conn2, evs2⟩ <;>
      · rw [hw] at h2
        simp only [serverListenForHelloAndRespond, ha, hr, hw]
        intro ev hev
        simp only [List.mem_append, List.mem_cons, List.mem_singleton, List.not_mem_nil,
          or_false] at hev
        rcases hev with hev | hev
        · rcases hev with hev | hev
          · rcases hev with hev | hev
            · rcases hev with (hev | hev | hev) | hev
              · subst hev; rfl
              · subst hev; rfl
              · subst hev; rfl
              · exact h1 ev hev
            · rcases hev with hev | hev <;> subst hev <;> simp [Event.isServerSide, Arg.isErrText]
          · exact h2 ev hev
        · first
          | (subst hev; rfl)
          | (rcases hev with hev | hev <;> subst hev <;> rfl)
    · rw [hr] at h1
      simp only [serverListenForHelloAndRespond, ha, hr]
      intro ev hev
      simp only [List.mem_append, List.mem_cons, List.mem_singleton, List.not_mem_nil,
        or_false] at hev
      rcases hev with ((hev | hev | hev) | hev) | hev
      · subst hev; rfl
      · subst hev; rfl
      · subst hev; rfl
      · exact h1 ev hev
      · subst hev; rfl

theorem isServerSide_quiet (ev : Event) (h : ev.isServerSide = true) :
    ∀ e, ev.failure ≠ some (.CLIENT, e) := by
  intro e
  cases ev with
  | printf t f args => simp [Event.failure]
  | sleep d => simp [Event.failure]
  | dial a err => simp [Event.isServerSide] at h
  | setWriteDeadline who d err =>
    cases who <;> cases err <;> simp_all [Event.isServerSide, Event.failure]
  | write who m n err => cases who <;> cases err <;> simp_all [Event.isServerSide, Event.failure]
  | setReadDeadline who d err =>
    cases who <;> cases err <;> simp_all [Event.isServerSide, Event.failure]
  | read who b n err => cases who <;> cases err <;> simp_all [Event.isServerSide, Event.failure]
  | connClose who err => cases who <;> cases err <;> simp_all [Event.isServerSide, Event.failure]
  | accept err => cases err <;> simp [Event.failure]
  | sendConn => simp [Event.failure]
  | closeDone who => simp [Event.failure]
  | tempFile err => simp [Event.failure]
  | fileClose err => simp [Event.failure]
  | remove a err => simp [Event.failure]
  | listen a err => simp [Event.failure]
  | listenerClose err => cases err <;> simp [Event.failure]

theorem no_errText_of_all (args : List Arg) (h : args.all (fun a => !a.isErrText) = true)
    (e : GoError) : args.contains (.errText e) = false := by
  rw [List.all_eq_true] at h
  cases hc : args.contains (Arg.errText e) with
  | false => rfl
  | true =>
    have hm : Arg.errText e ∈ args := by simpa using hc
    have := h _ hm
    simp [Arg.isErrText] at this

theorem isServerSide_no_report (ev : Event) (h : ev.isServerSide = true) :
    ∀ e, ev.reports .SERVER e = false := by
  intro e
  cases ev with
  | printf t f args =>
    cases t
    · simp [Event.reports]
    · simp only [Event.isServerSide] at h
      simpa [Event.reports] using no_errText_of_all args h e
    · simp [Event.reports]
  | _ => rfl

theorem isClientSide_no_report (ev : Event) (h : ev.isClientSide = true) :
    ∀ e, ev.reports .SERVER e = false := by
  intro e
  cases ev with
  | printf t f args =>
    cases t
    · simp [Event.reports]
    · simp [Event.isClientSide] at h
    · simp [Event.reports]
  | _ => rfl

theorem unixSocketAddr_isServerSide (fs : FileSys) :
    ∀ ev ∈ (unixSocketAddr fs).2, ev.isServerSide = true := by
  rcases h : fs.tempFileRes with e | a <;> simp [unixSocketAddr, h, Event.isServerSide]

theorem errorsLoggedOf_of_serverSide (l : List Event) (h : ∀ ev ∈ l, ev.isServerSide = true) :
    errorsLoggedOf .CLIENT l = true :=
  errorsLoggedOf_of_quiet _ l (fun ev hev => isServerSide_quiet ev (h ev hev))

/-- C7 (amended): in the trace of every run of the experiment, every failed
call of the client side (a dial, a deadline, a write, a read, the close of
the client connection) is followed by a log line under `CLIENT` that reports
its error; and no log line under `SERVER` reports an error. -/
theorem experiment_client_errors_logged (env : Env) :
    errorsLoggedOf .CLIENT (RunUnixDomainSocketTimeoutExperiment env).2 = true ∧
    ∀ ev ∈ (RunUnixDomainSocketTimeoutExperiment env).2, ∀ e, ev.reports .SERVER e = false := by
  have hside : ∀ ev : Event, ev.isClientSide = true ∨ ev.isServerSide = true →
      ∀ e, ev.reports .SERVER e = false := by
    intro ev h
    rcases h with h | h
    · exact isClientSide_no_report ev h
    · exact isServerSide_no_report ev h
  have hfs := unixSocketAddr_isServerSide env.fs
  rcases hu : unixSocketAddr env.fs with ⟨⟨addr, _ | e⟩, evs⟩
  · rw [hu] at hfs
    have hc1 := client_logged addr env.dial1
    have hs1 := client_isClientSide addr env.dial1
    have hc2 := client_logged addr env.dial2
    have hs2 := client_isClientSide addr env.dial2
    have hc3 := client_logged addr env.dial3
    have hs3 := client_isClientSide addr env.dial3
    have htest1 : errorsLoggedOf .CLIENT (evs ++
        [.printf .SERVER "Using Unix domain socket: %s\n\n" [.str addr],
         .printf .DASHES "TEST 1: Try to connect to dead server\n\n" []] ++
        client addr env.dial1) = true :=
      errorsLoggedOf_append _ _ _
        (errorsLoggedOf_append _ _ _ (errorsLoggedOf_of_serverSide _ hfs)
          (by simp [errorsLoggedOf, Event.failure])) hc1
    rcases hl : env.listenRes with e | ln
    · simp only [RunUnixDomainSocketTimeoutExperiment, hu, hl]
      refine ⟨errorsLoggedOf_append _ _ _ htest1 (by simp [errorsLoggedOf, Event.failure]), ?_⟩
      intro ev hev
      apply hside
      simp only [List.mem_append, List.mem_cons, List.mem_singleton, List.not_mem_nil,
        or_false] at hev
      rcases hev with ((hev | hev | hev) | hev) | hev
      · exact Or.inr (hfs ev hev)
      · subst hev; exact Or.inr rfl
      · subst hev; exact Or.inr rfl
      · exact Or.inl (hs1 ev hev)
      · subst hev; exact Or.inr rfl
    · have hsv := server_isServerSide ln
      have hi : errorsLoggedOf .CLIENT
          (interleave env.sched (serverListenForHelloAndRespond ln).2.2 (client addr env.dial3)) =
          true :=
        errorsLoggedOf_interleave _ _ _ _ (fun ev hev => isServerSide_quiet ev (hsv ev hev)) hc3
      have hi2 : ∀ ev ∈ interleave env.sched (serverListenForHelloAndRespond ln).2.2
          (client addr env.dial3), ev.isClientSide = true ∨ ev.isServerSide = true := by
        intro ev hev
        rcases (mem_interleave ev _ _ _).mp hev with h | h
        · exact Or.inr (hsv ev h)
        · exact Or.inl (hs3 ev h)
      rcases hs : serverListenForHelloAndRespond ln with ⟨r, _ | sc, sevs⟩ <;>
      · rw [hs] at hi hi2
        simp only [RunUnixDomainSocketTimeoutExperiment, hu, hl, hs]
        constructor
        · repeat' first
            | exact errorsLoggedOf_of_serverSide _ hfs
            | exact hc1
            | exact hc2
            | exact hi
            | apply errorsLoggedOf_append
          all_goals
            exact errorsLoggedOf_of_serverSide _ (by simp [Event.isServerSide, Arg.isErrText])
        · intro ev hev
          apply hside
          revert ev
          simp only [List.forall_mem_append]
          repeat' first
            | exact fun ev hev => Or.inr (hfs ev hev)
            | exact fun ev hev => Or.inl (hs1 ev hev)
            | exact fun ev hev => Or.inl (hs2 ev hev)
            | exact hi2
            | constructor
          all_goals simp [Event.isServerSide, Arg.isErrText]
  · rw [hu] at hfs
    simp only [RunUnixDomainSocketTimeoutExperiment, hu]
    exact ⟨errorsLoggedOf_of_serverSide _ hfs, fun ev hev => hside ev (Or.inr (hfs ev hev))⟩

/-- C7 (counterexample): a run of the experiment in which the `Write` of the
responder fails; the failed call is in the trace, and no log line under
`SERVER` anywhere in the trace reports its error. -/
theorem experiment_server_error_not_logged :
    Event.write .SERVER (bytesOf "Hey there!") 0 (some brokenPipeErr) ∈
      (RunUnixDomainSocketTimeoutExperiment staleEnv).2 ∧
    (Event.write .SERVER (bytesOf "Hey there!") 0 (some brokenPipeErr)).failure =
      some (.SERVER, brokenPipeErr) ∧
    (RunUnixDomainSocketTimeoutExperiment staleEnv).2.any (Event.reports .SERVER brokenPipeErr) =
      false ∧
    errorsLogged (RunUnixDomainSocketTimeoutExperiment staleEnv).2 = false := by
  refine ⟨by decide, by decide, by decide, by decide⟩


end Experiments
